import Mathlib

/-!
Verification of the sales-analysis profit-change query (`src/server.py`).

The program consists of one SQL-generating routine,
`get_profit_change_by_segment`, plus a thin public entry point
`get_profit_change`.  We give a shallow embedding of the generated query's
semantics over an in-memory table (`List Row`), translated clause by clause
from the SQL text in the source, and of the surrounding Python control flow
(the `assert`, the `profit_expressions` dict lookup, the granularity
inference, and the `time_values[0]` access).  Python exceptions are
modelled by `Except String`; distinct exception kinds carry distinct
messages.
-/

namespace SalesAnalysis

/-- One row of the warehouse table `sales_data`.  The three time columns and
the numeric quantity/price columns are named fields (SQL `NULL` is `none`);
all remaining columns (`bu`, `product`, `customer`, ...) live in the
association list `cols`. -/
structure Row where
  ym : String
  yq : String
  yh : String
  mid_man_qty : Option Int
  mid_man_unit_price_jpy : Option Int
  maker_unit_price_jpy : Option Int
  seller_qty : Option Int
  seller_unit_price_jpy : Option Int
  cols : List (String × String)
deriving DecidableEq, Repr

/-- SQL `COALESCE(x, 0)`. -/
def coalesce (x : Option Int) : Int := x.getD 0

/-- The `"middle_man"` entry of `profit_expressions`:
`COALESCE(mid_man_qty,0) * (COALESCE(mid_man_unit_price_jpy,0) - COALESCE(maker_unit_price_jpy,0))`. -/
def middle_man_expr (sd : Row) : Int :=
  coalesce sd.mid_man_qty *
    (coalesce sd.mid_man_unit_price_jpy - coalesce sd.maker_unit_price_jpy)

/-- The `"seller"` entry of `profit_expressions`:
`COALESCE(seller_qty,0) * (COALESCE(seller_unit_price_jpy,0) - COALESCE(mid_man_unit_price_jpy,0))`. -/
def seller_expr (sd : Row) : Int :=
  coalesce sd.seller_qty *
    (coalesce sd.seller_unit_price_jpy - coalesce sd.mid_man_unit_price_jpy)

/-- The `"overall"` entry of `profit_expressions`: the textual sum of the two
expressions above, written out in full as in the source. -/
def overall_expr (sd : Row) : Int :=
  coalesce sd.mid_man_qty *
    (coalesce sd.mid_man_unit_price_jpy - coalesce sd.maker_unit_price_jpy) +
  coalesce sd.seller_qty *
    (coalesce sd.seller_unit_price_jpy - coalesce sd.mid_man_unit_price_jpy)

/-- The `profit_expressions` dict of the source, as an association list;
Python's `profit_expressions[profit_type]` becomes `List.lookup`. -/
def profit_expressions : List (String × (Row → Int)) :=
  [("middle_man", middle_man_expr), ("seller", seller_expr), ("overall", overall_expr)]

/-- SQL `position(c IN s)`: 1-based index of the first occurrence of `c`,
`0` when `c` does not occur. -/
def positionAux (c : Char) : List Char → Nat
  | [] => 0
  | a :: l => if a = c then 1 else
      match positionAux c l with
      | 0 => 0
      | n + 1 => n + 2

/-- SQL `position(c IN s)` on a `String`. -/
def position (c : Char) (s : String) : Nat := positionAux c s.data

/-- Plain prefix test on strings (`s` starts with `p`), used to state when
a `LIKE` pattern degenerates to prefix matching. -/
def strStartsWith (s p : String) : Bool := p.data.isPrefixOf s.data

/-- SQL `LIKE` pattern matching on character lists: `%` matches any
sequence, `_` matches exactly one character, `\` escapes the following
pattern character, and any other character matches itself.  A pattern
ending in a lone `\` is a Postgres error ("LIKE pattern must not end with
escape character"), modelled as no match; it is unreachable for the
patterns `t || '%'` this program generates. -/
def likeMatch : List Char → List Char → Bool
  | [], s => s.isEmpty
  | c :: p, s =>
    if c = '%' then s.tails.any (fun s2 => likeMatch p s2)
    else if c = '_' then
      match s with
      | [] => false
      | _ :: s2 => likeMatch p s2
    else if c = '\\' then
      match p with
      | [] => false
      | d :: p2 =>
        match s with
        | [] => false
        | a :: s2 => a == d && likeMatch p2 s2
    else
      match s with
      | [] => false
      | a :: s2 => a == c && likeMatch p s2

/-- SQL `s LIKE pat` on strings. -/
def sqlLike (s pat : String) : Bool := likeMatch pat.data s.data

/-- The `CASE WHEN` time-matching condition of the generated query, for one
target value `t`; the prefix branches are SQL `col LIKE t || '%'`. -/
def rowMatches (time_column t : String) (sd : Row) : Bool :=
  (time_column == "ym" && sd.ym == t) ||
  (time_column == "yq" && sd.yq == t) ||
  (time_column == "yh" && sd.yh == t) ||
  (time_column == "ym" && position '/' t == 0 && sqlLike sd.ym (t ++ "%")) ||
  (time_column == "yq" && position 'Q' t == 0 && sqlLike sd.yq (t ++ "%")) ||
  (time_column == "yh" && position 'H' t == 0 && sqlLike sd.yh (t ++ "%"))

/-- Value of a named column of a row, as used by `GROUP BY`. -/
def colValue (sd : Row) (c : String) : Option String :=
  if c = "ym" then some sd.ym
  else if c = "yq" then some sd.yq
  else if c = "yh" then some sd.yh
  else sd.cols.lookup c

/-- The `GROUP BY` key of a row: the tuple of its values in the `group_by`
columns. -/
def groupKey (group_by : List String) (sd : Row) : List (Option String) :=
  group_by.map (colValue sd)

/-- The elements of the second list not already seen in the first, in order
of first appearance. -/
def dedupFirstAux {α : Type} [DecidableEq α] : List α → List α → List α
  | _, [] => []
  | seen, a :: l =>
    if a ∈ seen then dedupFirstAux seen l
    else a :: dedupFirstAux (a :: seen) l

/-- The distinct elements of a list in order of first appearance: the set of
groups produced by `GROUP BY`. -/
def dedupFirst {α : Type} [DecidableEq α] (l : List α) : List α :=
  dedupFirstAux [] l

/-- The groups of the `calc` CTE: distinct `GROUP BY` keys of the table. -/
def groups (db : List Row) (group_by : List String) : List (List (Option String)) :=
  dedupFirst (db.map (groupKey group_by))

/-- One aggregate of the `calc` CTE for group `g`:
`SUM(CASE WHEN <match t> THEN <profit_expr> ELSE 0 END)` over the rows of
the group. -/
def groupProfit (db : List Row) (group_by : List String) (pe : Row → Int)
    (time_column t : String) (g : List (Option String)) : Int :=
  ((db.filter (fun sd => decide (groupKey group_by sd = g))).map
    (fun sd => if rowMatches time_column t sd then pe sd else 0)).sum

/-- `total_profit_change` of the `final` CTE:
`SUM(profit_t2_jpy - profit_t1_jpy) OVER ()`, the sum of `profit_change`
over all groups (before `ORDER BY`/`LIMIT`). -/
def totalProfitChange (db : List Row) (group_by : List String) (pe : Row → Int)
    (time_column t1 t2 : String) : Int :=
  ((groups db group_by).map
    (fun g => groupProfit db group_by pe time_column t2 g -
              groupProfit db group_by pe time_column t1 g)).sum

/-- Postgres `ROUND(x, 2)` on `numeric`: round to 2 decimal places, halves
away from zero. -/
def round2 (x : ℚ) : ℚ :=
  (if 0 ≤ x then ((⌊x * 100 + 1/2⌋ : Int) : ℚ)
   else -((⌊-(x * 100) + 1/2⌋ : Int) : ℚ)) / 100

/-- One output row of the query. -/
structure ProfitChangeRecord where
  key : List (Option String)
  profit_t1_jpy : Int
  profit_t2_jpy : Int
  profit_change : Int
  percent_profit_change : ℚ
deriving DecidableEq, Repr

/-- The record the outer `SELECT` builds for group `g`: the two period sums,
`profit_change = profit_t2_jpy - profit_t1_jpy`, and
`CASE WHEN total_profit_change = 0 THEN 0
 ELSE ROUND((profit_change::numeric / ABS(total_profit_change)) * 100, 2) END`. -/
def mkRecord (db : List Row) (group_by : List String) (pe : Row → Int)
    (time_column t1 t2 : String) (g : List (Option String)) : ProfitChangeRecord :=
  let p1 := groupProfit db group_by pe time_column t1 g
  let p2 := groupProfit db group_by pe time_column t2 g
  let total := totalProfitChange db group_by pe time_column t1 t2
  { key := g
    profit_t1_jpy := p1
    profit_t2_jpy := p2
    profit_change := p2 - p1
    percent_profit_change :=
      if total = 0 then 0
      else round2 ((((p2 - p1 : Int) : ℚ) / |((total : Int) : ℚ)|) * 100) }

/-- All output rows before `ORDER BY`/`LIMIT`. -/
def finalRecords (db : List Row) (group_by : List String) (pe : Row → Int)
    (time_column t1 t2 : String) : List ProfitChangeRecord :=
  (groups db group_by).map (mkRecord db group_by pe time_column t1 t2)

/-- `ORDER BY ABS(profit_change) DESC`: `a` may precede `b` when
`|b.profit_change| ≤ |a.profit_change|`. -/
def recOrder (a b : ProfitChangeRecord) : Prop :=
  |b.profit_change| ≤ |a.profit_change|

instance : DecidableRel recOrder := fun a b =>
  inferInstanceAs (Decidable (|b.profit_change| ≤ |a.profit_change|))

instance : IsTotal ProfitChangeRecord recOrder :=
  ⟨fun a b => le_total |b.profit_change| |a.profit_change|⟩

instance : IsTrans ProfitChangeRecord recOrder :=
  ⟨fun _ _ _ h1 h2 => le_trans h2 h1⟩

/-- The full result set of the generated query:
`ORDER BY ABS(profit_change) DESC LIMIT limit` applied to the group records. -/
def queryRows (db : List Row) (group_by : List String) (pe : Row → Int)
    (time_column t1 t2 : String) (limit : Nat) : List ProfitChangeRecord :=
  (List.insertionSort recOrder (finalRecords db group_by pe time_column t1 t2)).take limit

/-- `get_profit_change_by_segment` of the source: the `assert` on
`len(time_values)` (an `AssertionError` when it fails), the
`profit_expressions[profit_type]` dict subscript (a `KeyError` on an unknown
key), then the query. -/
def get_profit_change_by_segment (db : List Row) (profit_type time_column : String)
    (time_values : List String) (group_by : List String) (limit : Nat) :
    Except String (List ProfitChangeRecord) :=
  match time_values with
  | [t1, t2] =>
    match profit_expressions.lookup profit_type with
    | some pe => Except.ok (queryRows db group_by pe time_column t1 t2 limit)
    | none => Except.error ("KeyError: " ++ profit_type)
  | _ => Except.error "AssertionError: Exactly two time values required"

/-- The granularity inference at the head of `get_profit_change`:
`'Q' in time_values[0]` gives `'yq'`, else `'H'` gives `'yh'`, else `'ym'`. -/
def inferTimeColumn (t0 : String) : String :=
  if t0.contains 'Q' then "yq"
  else if t0.contains 'H' then "yh"
  else "ym"

/-- The public entry point `get_profit_change`: `time_values[0]` (an
`IndexError` on an empty list), granularity inference overwriting the
`time_column` argument, then the query routine via `fetch_data`.  The
`time_column` parameter is deliberately unused, as in the source. -/
def get_profit_change (db : List Row) (profit_type time_column : String)
    (time_values : List String) (group_by : List String) (limit : Nat) :
    Except String (List ProfitChangeRecord) :=
  match time_values with
  | [] => Except.error "IndexError: list index out of range"
  | t0 :: _ =>
    get_profit_change_by_segment db profit_type (inferTimeColumn t0)
      time_values group_by limit

/-! ### A concrete four-row table for witnesses -/

/-- Example rows: `rowW1` and `rowW2` share `ym` but differ in every other
field. -/
def rowW1 : Row :=
  { ym := "2022/05", yq := "2022 Q2", yh := "2022 H1"
    mid_man_qty := some 2, mid_man_unit_price_jpy := some 10
    maker_unit_price_jpy := some 4, seller_qty := some 1
    seller_unit_price_jpy := some 15
    cols := [("bu", "A"), ("product", "P1"), ("customer", "C1")] }

def rowW2 : Row :=
  { ym := "2022/05", yq := "1999 Q4", yh := "1999 H2"
    mid_man_qty := some 3, mid_man_unit_price_jpy := some 7
    maker_unit_price_jpy := some 2, seller_qty := some 5
    seller_unit_price_jpy := some 9
    cols := [("bu", "B"), ("product", "P2"), ("customer", "C2")] }

def rowW3 : Row :=
  { ym := "2023/02", yq := "2023 Q1", yh := "2023 H1"
    mid_man_qty := some 4, mid_man_unit_price_jpy := some 9
    maker_unit_price_jpy := some 3, seller_qty := some 2
    seller_unit_price_jpy := some 11
    cols := [("bu", "A"), ("product", "P3"), ("customer", "C1")] }

def rowW4 : Row :=
  { ym := "2023/07", yq := "2023 Q3", yh := "2023 H2"
    mid_man_qty := some 1, mid_man_unit_price_jpy := some 5
    maker_unit_price_jpy := some 1, seller_qty := some 3
    seller_unit_price_jpy := some 8
    cols := [("bu", "B"), ("product", "P4"), ("customer", "C2")] }

def dbW : List Row := [rowW1, rowW2, rowW3, rowW4]

/-- The two records the query produces on `dbW` for
`("middle_man", "ym", ["2022", "2023"], ["bu"], 10)`. -/
def recW1 : ProfitChangeRecord :=
  { key := [some "A"], profit_t1_jpy := 12, profit_t2_jpy := 24
    profit_change := 12
    percent_profit_change :=
      round2 ((((12 : Int) : ℚ) / |((1 : Int) : ℚ)|) * 100) }

def recW2 : ProfitChangeRecord :=
  { key := [some "B"], profit_t1_jpy := 15, profit_t2_jpy := 4
    profit_change := -11
    percent_profit_change :=
      round2 ((((-11 : Int) : ℚ) / |((1 : Int) : ℚ)|) * 100) }

def outW : List ProfitChangeRecord := [recW1, recW2]

/-- A row whose `ym` is matched by the target `"2_22"` through the `_`
wildcard of `LIKE`, although `"2122/03"` neither equals `"2_22"` nor
starts with it. -/
def rowCX : Row :=
  { ym := "2122/03", yq := "2122 Q1", yh := "2122 H1"
    mid_man_qty := none, mid_man_unit_price_jpy := none
    maker_unit_price_jpy := none, seller_qty := none
    seller_unit_price_jpy := none, cols := [] }

/-! ### Properties of the time-matching predicate -/

theorem positionAux_eq_zero_iff (c : Char) (l : List Char) :
    positionAux c l = 0 ↔ c ∉ l := by
  induction l with
  | nil => simp [positionAux]
  | cons a l ih =>
    by_cases h : a = c
    · subst h
      simp [positionAux]
    · rw [positionAux, if_neg h]
      cases hp : positionAux c l with
      | zero =>
        simp only [List.mem_cons, not_or]
        exact iff_of_true trivial ⟨fun hc => h hc.symm, ih.mp hp⟩
      | succ n =>
        have hc : c ∈ l := by
          by_contra hcl
          rw [ih.mpr hcl] at hp
          exact Nat.succ_ne_zero n hp.symm
        simp [hc]

theorem position_eq_zero_iff (c : Char) (t : String) :
    position c t = 0 ↔ c ∉ t.data :=
  positionAux_eq_zero_iff c t.data

theorem likeMatch_percent_nil (s : List Char) : likeMatch ['%'] s = true := by
  simp only [likeMatch]
  rw [if_pos trivial, List.any_eq_true]
  exact ⟨[], (List.mem_tails _ _).mpr List.nil_suffix, rfl⟩

theorem likeMatch_cons_nonspecial (c : Char) (p s : List Char)
    (hc1 : c ≠ '%') (hc2 : c ≠ '_') (hc3 : c ≠ '\\') :
    likeMatch (c :: p) s =
      (match s with | [] => false | a :: s2 => a == c && likeMatch p s2) := by
  rw [likeMatch.eq_def]
  simp only [if_neg hc1, if_neg hc2, if_neg hc3]

/-- On a pattern free of the `LIKE` wildcard and escape characters, the
pattern `p ++ "%"` matches exactly the strings with prefix `p`. -/
theorem likeMatch_wildcard_free (p s : List Char)
    (h1 : '%' ∉ p) (h2 : '_' ∉ p) (h3 : '\\' ∉ p) :
    likeMatch (p ++ ['%']) s = p.isPrefixOf s := by
  induction p generalizing s with
  | nil => simp [likeMatch_percent_nil, List.isPrefixOf]
  | cons c p ih =>
    simp only [List.mem_cons, not_or] at h1 h2 h3
    rw [List.cons_append,
      likeMatch_cons_nonspecial c (p ++ ['%']) s
        (fun h => h1.1 h.symm) (fun h => h2.1 h.symm) (fun h => h3.1 h.symm)]
    cases s with
    | nil => rfl
    | cons a s2 =>
      simp only [List.isPrefixOf, ih s2 h1.2 h2.2 h3.2]
      by_cases hac : a = c
      · subst hac
        rfl
      · rw [beq_eq_false_iff_ne.mpr hac, beq_eq_false_iff_ne.mpr (Ne.symm hac)]

theorem sqlLike_append_percent_eq (s t : String)
    (h1 : '%' ∉ t.data) (h2 : '_' ∉ t.data) (h3 : '\\' ∉ t.data) :
    sqlLike s (t ++ "%") = strStartsWith s t := by
  rw [sqlLike, strStartsWith, String.data_append]
  exact likeMatch_wildcard_free t.data s.data h1 h2 h3

theorem rowMatches_ym (t : String) (sd : Row) :
    rowMatches "ym" t sd =
      (sd.ym == t || (position '/' t == 0 && sqlLike sd.ym (t ++ "%"))) := by
  rw [rowMatches]
  rw [show (("ym" : String) == "ym") = true from rfl,
    show (("ym" : String) == "yq") = false from rfl,
    show (("ym" : String) == "yh") = false from rfl]
  simp

theorem rowMatches_yq (t : String) (sd : Row) :
    rowMatches "yq" t sd =
      (sd.yq == t || (position 'Q' t == 0 && sqlLike sd.yq (t ++ "%"))) := by
  rw [rowMatches]
  rw [show (("yq" : String) == "ym") = false from rfl,
    show (("yq" : String) == "yq") = true from rfl,
    show (("yq" : String) == "yh") = false from rfl]
  simp

theorem rowMatches_yh (t : String) (sd : Row) :
    rowMatches "yh" t sd =
      (sd.yh == t || (position 'H' t == 0 && sqlLike sd.yh (t ++ "%"))) := by
  rw [rowMatches]
  rw [show (("yh" : String) == "ym") = false from rfl,
    show (("yh" : String) == "yq") = false from rfl,
    show (("yh" : String) == "yh") = true from rfl]
  simp

/-- A row matches a target under a column exactly when the row's value in
that column equals the target, or the target has no occurrence of the
column's delimiter and the value starts with the target. -/
theorem rowMatches_ym_iff (t : String) (sd : Row) :
    rowMatches "ym" t sd ↔ (sd.ym = t ∨ ('/' ∉ t.data ∧ sqlLike sd.ym (t ++ "%"))) := by
  rw [rowMatches_ym]
  simp [← position_eq_zero_iff, Nat.beq_eq]

theorem rowMatches_yq_iff (t : String) (sd : Row) :
    rowMatches "yq" t sd ↔ (sd.yq = t ∨ ('Q' ∉ t.data ∧ sqlLike sd.yq (t ++ "%"))) := by
  rw [rowMatches_yq]
  simp [← position_eq_zero_iff, Nat.beq_eq]

theorem rowMatches_yh_iff (t : String) (sd : Row) :
    rowMatches "yh" t sd ↔ (sd.yh = t ∨ ('H' ∉ t.data ∧ sqlLike sd.yh (t ++ "%"))) := by
  rw [rowMatches_yh]
  simp [← position_eq_zero_iff, Nat.beq_eq]

/-- C1, counterexample to the claim as stated: the target `"2_22"` contains
no `/`, so the prefix branch of the generated query fires under `ym`, and
SQL `LIKE '2_22%'` matches the row with `ym = "2122/03"` through the `_`
wildcard — yet `"2122/03"` neither equals `"2_22"` nor starts with it, so
the claimed "exact equality or starts-with" equivalence is false of the
program at this input. -/
theorem claim1_counterexample :
    rowMatches "ym" "2_22" rowCX = true
  ∧ rowCX.ym ≠ "2_22"
  ∧ strStartsWith rowCX.ym "2_22" = false
  ∧ ¬ (rowMatches "ym" "2_22" rowCX ↔
        (rowCX.ym = "2_22" ∨
          ('/' ∉ ("2_22" : String).data ∧ strStartsWith rowCX.ym "2_22"))) := by
  decide

/-- C1 (amended): a row matches a target time value under the selected time
column either by exact equality with the target, or, when the target
contains none of that column's delimiter characters (`/` for `ym`, `Q` for
`yq`, `H` for `yh`), by the column value matching the SQL `LIKE` pattern
`target || '%'`.  For targets free of the `LIKE` wildcard and escape
characters `%`, `_`, `\`, that pattern match is exactly "starts with the
target"; in particular a target `"2022"` under `ym` matches exactly the
rows whose `ym` starts with `"2022"`, and a target `"2022/05"` under `ym`
matches exactly the rows whose `ym` equals `"2022/05"`. -/
theorem claim1_time_value_matching_amended (sd : Row) (t : String) :
    (rowMatches "ym" t sd ↔ (sd.ym = t ∨ ('/' ∉ t.data ∧ sqlLike sd.ym (t ++ "%"))))
  ∧ (rowMatches "yq" t sd ↔ (sd.yq = t ∨ ('Q' ∉ t.data ∧ sqlLike sd.yq (t ++ "%"))))
  ∧ (rowMatches "yh" t sd ↔ (sd.yh = t ∨ ('H' ∉ t.data ∧ sqlLike sd.yh (t ++ "%"))))
  ∧ ('%' ∉ t.data → '_' ∉ t.data → '\\' ∉ t.data →
      sqlLike sd.ym (t ++ "%") = strStartsWith sd.ym t)
  ∧ (rowMatches "ym" "2022" sd ↔ strStartsWith sd.ym "2022")
  ∧ (rowMatches "ym" "2022/05" sd ↔ sd.ym = "2022/05") := by
  refine ⟨rowMatches_ym_iff t sd, rowMatches_yq_iff t sd, rowMatches_yh_iff t sd,
    fun h1 h2 h3 => sqlLike_append_percent_eq sd.ym t h1 h2 h3, ?_, ?_⟩
  · rw [rowMatches_ym_iff,
      sqlLike_append_percent_eq sd.ym "2022" (by decide) (by decide) (by decide)]
    constructor
    · rintro (h | h)
      · rw [h]
        decide
      · exact h.2
    · exact fun h => Or.inr ⟨by decide, h⟩
  · rw [rowMatches_ym_iff]
    constructor
    · rintro (h | h)
      · exact h
      · exact absurd (by decide : '/' ∈ ("2022/05" : String).data) h.1
    · exact fun h => Or.inl h

/-- Witness for the amended C1: the wildcard-free hypotheses discharged at
the concrete target `"2022"`. -/
theorem claim1_witness :
    sqlLike rowW1.ym ("2022" ++ "%") = strStartsWith rowW1.ym "2022" :=
  (claim1_time_value_matching_amended rowW1 "2022").2.2.2.1
    (by decide) (by decide) (by decide)

/-- C7: under each selected time column, whether a row matches depends only
on the row's value in that column; changing the other columns of the row
never changes the outcome. -/
theorem claim7_only_selected_column (t : String) (r r' : Row) :
    (r.ym = r'.ym → rowMatches "ym" t r = rowMatches "ym" t r')
  ∧ (r.yq = r'.yq → rowMatches "yq" t r = rowMatches "yq" t r')
  ∧ (r.yh = r'.yh → rowMatches "yh" t r = rowMatches "yh" t r') := by
  refine ⟨fun h => ?_, fun h => ?_, fun h => ?_⟩
  · rw [rowMatches_ym, rowMatches_ym, h]
  · rw [rowMatches_yq, rowMatches_yq, h]
  · rw [rowMatches_yh, rowMatches_yh, h]

/-- Witness for C7 at concrete rows sharing `ym` but differing in every
other field. -/
theorem claim7_witness :
    rowMatches "ym" "2022" rowW1 = rowMatches "ym" "2022" rowW2 :=
  (claim7_only_selected_column "2022" rowW1 rowW2).1 rfl

/-- C5: for every row (missing values treated as zero by `COALESCE`), the
`overall` profit expression equals the `middle_man` expression plus the
`seller` expression. -/
theorem claim5_overall_is_sum (sd : Row) :
    overall_expr sd = middle_man_expr sd + seller_expr sd := rfl

/-- C3: whenever `time_values` does not have length exactly 2, the routine
returns the assertion error, a constant independent of the database — no
query is constructed or executed. -/
theorem claim3_time_values_length_validation (db : List Row)
    (profit_type time_column : String) (time_values group_by : List String)
    (limit : Nat) (h : time_values.length ≠ 2) :
    get_profit_change_by_segment db profit_type time_column time_values group_by limit
      = Except.error "AssertionError: Exactly two time values required" := by
  match time_values with
  | [] => rfl
  | [_] => rfl
  | [_, _] => exact absurd rfl h
  | _ :: _ :: _ :: _ => rfl

/-- Witness for C3: the length-1 input `["2022"]`. -/
theorem claim3_witness :
    get_profit_change_by_segment [rowW1] "middle_man" "ym" ["2022"] ["bu"] 10
      = Except.error "AssertionError: Exactly two time values required" :=
  claim3_time_values_length_validation [rowW1] "middle_man" "ym" ["2022"] ["bu"] 10
    (by decide)

/-- C6: an unrecognized `profit_type` makes the routine fail with the
`KeyError` of the dict subscript, a value independent of the database — no
default expression is substituted and no query is constructed. -/
theorem claim6_unknown_profit_type (db : List Row)
    (profit_type time_column t1 t2 : String) (group_by : List String) (limit : Nat)
    (h : profit_type ∉ ["middle_man", "seller", "overall"]) :
    get_profit_change_by_segment db profit_type time_column [t1, t2] group_by limit
      = Except.error ("KeyError: " ++ profit_type) := by
  simp only [List.mem_cons, List.not_mem_nil, or_false, not_or] at h
  obtain ⟨h1, h2, h3⟩ := h
  have l1 : (profit_type == "middle_man") = false := beq_eq_false_iff_ne.mpr h1
  have l2 : (profit_type == "seller") = false := beq_eq_false_iff_ne.mpr h2
  have l3 : (profit_type == "overall") = false := beq_eq_false_iff_ne.mpr h3
  simp only [get_profit_change_by_segment, profit_expressions, List.lookup, l1, l2, l3]

/-- Witness for C6 at the concrete unknown variant `"bogus"`. -/
theorem claim6_witness :
    get_profit_change_by_segment [rowW1] "bogus" "ym" ["2022", "2023"] ["bu"] 10
      = Except.error ("KeyError: " ++ "bogus") :=
  claim6_unknown_profit_type [rowW1] "bogus" "ym" "2022" "2023" ["bu"] 10 (by decide)

/-- C9: on any nonempty `time_values`, the public entry point calls the
query routine with the time column inferred from `time_values[0]` alone
(`Q` → `yq`, else `H` → `yh`, else `ym`), and its result never depends on
the `time_column` argument the caller supplied. -/
theorem claim9_granularity_inference_overrides (db : List Row)
    (profit_type time_column time_column' t0 : String)
    (rest group_by : List String) (limit : Nat) :
    get_profit_change db profit_type time_column (t0 :: rest) group_by limit
      = get_profit_change_by_segment db profit_type (inferTimeColumn t0)
          (t0 :: rest) group_by limit
  ∧ get_profit_change db profit_type time_column (t0 :: rest) group_by limit
      = get_profit_change db profit_type time_column' (t0 :: rest) group_by limit :=
  ⟨rfl, rfl⟩

/-- C10: with an empty `time_values`, the public entry point fails with the
`IndexError` of the `time_values[0]` access, which is not the length
validation's `AssertionError`. -/
theorem claim10_empty_time_values_index_error (db : List Row)
    (profit_type time_column : String) (group_by : List String) (limit : Nat) :
    get_profit_change db profit_type time_column [] group_by limit
      = Except.error "IndexError: list index out of range"
  ∧ get_profit_change db profit_type time_column [] group_by limit
      ≠ Except.error "AssertionError: Exactly two time values required" := by
  refine ⟨rfl, fun h => ?_⟩
  rw [show get_profit_change db profit_type time_column [] group_by limit
      = Except.error "IndexError: list index out of range" from rfl] at h
  exact absurd (Except.error.inj h) (by decide)

/-! ### Inverting a successful call -/

theorem get_profit_change_by_segment_ok (db : List Row)
    (profit_type time_column t1 t2 : String) (group_by : List String)
    (limit : Nat) (pe : Row → Int)
    (hpe : profit_expressions.lookup profit_type = some pe) :
    get_profit_change_by_segment db profit_type time_column [t1, t2] group_by limit
      = Except.ok (queryRows db group_by pe time_column t1 t2 limit) := by
  simp only [get_profit_change_by_segment, hpe]

theorem get_profit_change_by_segment_err (db : List Row)
    (profit_type time_column t1 t2 : String) (group_by : List String)
    (limit : Nat) (hpe : profit_expressions.lookup profit_type = none) :
    get_profit_change_by_segment db profit_type time_column [t1, t2] group_by limit
      = Except.error ("KeyError: " ++ profit_type) := by
  simp only [get_profit_change_by_segment, hpe]

theorem ok_inv {db : List Row} {profit_type time_column t1 t2 : String}
    {group_by : List String} {limit : Nat} {out : List ProfitChangeRecord}
    (hout : get_profit_change_by_segment db profit_type time_column [t1, t2]
      group_by limit = Except.ok out) :
    ∃ pe, profit_expressions.lookup profit_type = some pe ∧
      out = queryRows db group_by pe time_column t1 t2 limit := by
  cases hpe : profit_expressions.lookup profit_type with
  | none =>
    rw [get_profit_change_by_segment_err db profit_type time_column t1 t2 group_by
      limit hpe] at hout
    exact Except.noConfusion hout
  | some pe =>
    rw [get_profit_change_by_segment_ok db profit_type time_column t1 t2 group_by
      limit pe hpe] at hout
    exact ⟨pe, rfl, (Except.ok.inj hout).symm⟩

/-- Every record of the result set is the record the query builds for some
group of the table. -/
theorem mem_queryRows {db : List Row} {group_by : List String} {pe : Row → Int}
    {time_column t1 t2 : String} {limit : Nat} {rec : ProfitChangeRecord}
    (h : rec ∈ queryRows db group_by pe time_column t1 t2 limit) :
    ∃ g ∈ groups db group_by, rec = mkRecord db group_by pe time_column t1 t2 g := by
  have h1 : rec ∈ List.insertionSort recOrder
      (finalRecords db group_by pe time_column t1 t2) :=
    (List.take_sublist _ _).subset h
  have h2 : rec ∈ finalRecords db group_by pe time_column t1 t2 :=
    (List.perm_insertionSort recOrder _).subset h1
  obtain ⟨g, hg, hrec⟩ := List.mem_map.mp h2
  exact ⟨g, hg, hrec.symm⟩

/-- C2: every record of a successful call carries
`percent_profit_change = ROUND(profit_change / ABS(total_profit_change) * 100, 2)`
where `total_profit_change` sums `profit_change` over all groups of the
call, and carries exactly `0` whenever `total_profit_change` is `0`. -/
theorem claim2_percent_profit_change (db : List Row)
    (profit_type time_column t1 t2 : String) (group_by : List String)
    (limit : Nat) (pe : Row → Int) (out : List ProfitChangeRecord)
    (rec : ProfitChangeRecord)
    (hpe : profit_expressions.lookup profit_type = some pe)
    (hout : get_profit_change_by_segment db profit_type time_column [t1, t2]
      group_by limit = Except.ok out)
    (hrec : rec ∈ out) :
    (totalProfitChange db group_by pe time_column t1 t2 ≠ 0 →
      rec.percent_profit_change =
        round2 (((rec.profit_change : Int) : ℚ) /
          |((totalProfitChange db group_by pe time_column t1 t2 : Int) : ℚ)| * 100))
  ∧ (totalProfitChange db group_by pe time_column t1 t2 = 0 →
      rec.percent_profit_change = 0) := by
  rw [get_profit_change_by_segment_ok db profit_type time_column t1 t2 group_by
    limit pe hpe] at hout
  obtain ⟨g, _, hrec_eq⟩ := mem_queryRows ((Except.ok.inj hout) ▸ hrec)
  subst hrec_eq
  constructor
  · intro hne
    simp [mkRecord, hne]
  · intro h0
    simp [mkRecord, h0]

/-- C8: every record of a successful call has
`profit_change = profit_t2_jpy - profit_t1_jpy`, where the two period
profits are the record's group's sums over the rows matching `t1` and `t2`
respectively. -/
theorem claim8_profit_change_difference (db : List Row)
    (profit_type time_column t1 t2 : String) (group_by : List String)
    (limit : Nat) (pe : Row → Int) (out : List ProfitChangeRecord)
    (rec : ProfitChangeRecord)
    (hpe : profit_expressions.lookup profit_type = some pe)
    (hout : get_profit_change_by_segment db profit_type time_column [t1, t2]
      group_by limit = Except.ok out)
    (hrec : rec ∈ out) :
    ∃ g ∈ groups db group_by,
      rec.profit_t1_jpy = groupProfit db group_by pe time_column t1 g
    ∧ rec.profit_t2_jpy = groupProfit db group_by pe time_column t2 g
    ∧ rec.profit_change = rec.profit_t2_jpy - rec.profit_t1_jpy := by
  rw [get_profit_change_by_segment_ok db profit_type time_column t1 t2 group_by
    limit pe hpe] at hout
  obtain ⟨g, hg, hrec_eq⟩ := mem_queryRows ((Except.ok.inj hout) ▸ hrec)
  subst hrec_eq
  exact ⟨g, hg, rfl, rfl, rfl⟩

/-- C4: the result of a successful call is ordered by `|profit_change|`
descending and has at most `limit` rows. -/
theorem claim4_sorted_and_limited (db : List Row)
    (profit_type time_column t1 t2 : String) (group_by : List String)
    (limit : Nat) (out : List ProfitChangeRecord)
    (hout : get_profit_change_by_segment db profit_type time_column [t1, t2]
      group_by limit = Except.ok out) :
    out.length ≤ limit
  ∧ out.Pairwise (fun a b => |b.profit_change| ≤ |a.profit_change|) := by
  obtain ⟨pe, _, hq⟩ := ok_inv hout
  subst hq
  constructor
  · exact List.length_take_le limit _
  · exact (List.sorted_insertionSort recOrder
      (finalRecords db group_by pe time_column t1 t2)).sublist
      (List.take_sublist _ _)

/-- Witness for C2 at the concrete table `dbW`, whose total profit change
is `1`. -/
theorem claim2_witness :
    (totalProfitChange dbW ["bu"] middle_man_expr "ym" "2022" "2023" ≠ 0 →
      recW1.percent_profit_change =
        round2 (((recW1.profit_change : Int) : ℚ) /
          |((totalProfitChange dbW ["bu"] middle_man_expr "ym" "2022" "2023"
            : Int) : ℚ)| * 100))
  ∧ (totalProfitChange dbW ["bu"] middle_man_expr "ym" "2022" "2023" = 0 →
      recW1.percent_profit_change = 0) :=
  claim2_percent_profit_change dbW "middle_man" "ym" "2022" "2023" ["bu"] 10
    middle_man_expr outW recW1 rfl (by rfl) (List.mem_cons_self recW1 [recW2])

/-- Witness for C8 at the concrete table `dbW`. -/
theorem claim8_witness :
    ∃ g ∈ groups dbW ["bu"],
      recW2.profit_t1_jpy = groupProfit dbW ["bu"] middle_man_expr "ym" "2022" g
    ∧ recW2.profit_t2_jpy = groupProfit dbW ["bu"] middle_man_expr "ym" "2023" g
    ∧ recW2.profit_change = recW2.profit_t2_jpy - recW2.profit_t1_jpy :=
  claim8_profit_change_difference dbW "middle_man" "ym" "2022" "2023" ["bu"] 10
    middle_man_expr outW recW2 rfl (by rfl)
    (List.mem_cons_of_mem recW1 (List.mem_cons_self recW2 []))

/-- Witness for C4 at the concrete table `dbW`. -/
theorem claim4_witness :
    outW.length ≤ 10
  ∧ outW.Pairwise (fun a b => |b.profit_change| ≤ |a.profit_change|) :=
  claim4_sorted_and_limited dbW "middle_man" "ym" "2022" "2023" ["bu"] 10 outW (by rfl)

end SalesAnalysis
